import Mathlib

/-!
# Verification of the ifex metadata codec subsystem

Shallow embedding of the EXIF/TIFF/sidecar codec layer of the `ifex`
command-line tool (JavaScript), together with theorems settling the
frozen specification claims.  JavaScript dynamic values are modelled by
the inductive type `JSVal`; objects used as tag stores are modelled by
association lists; filesystem and third-party-library effects (reads,
writes, `piexif`/`UTIF` encode and decode) are modelled by explicit
parameters recording their outcome.
-/

set_option autoImplicit false

namespace Ifex

/-- A JavaScript value, restricted to the shapes this program manipulates.
`arr1`/`arr2` model the one- and two-element numeric arrays the code
builds (`[iso]`, `[focalLength, 1]`, `[round(aperture*10), 10]`). -/
inductive JSVal where
  | undef
  | null
  | nan
  | bool (b : Bool)
  | num (n : Int)
  | str (s : String)
  | arr1 (x : JSVal)
  | arr2 (x y : JSVal)
  deriving DecidableEq, Repr

namespace JSVal

/-- JavaScript truthiness: `undefined`, `null`, `NaN`, `false`, `0` and
the empty string are falsy; objects (arrays) are always truthy. -/
def truthy : JSVal → Bool
  | undef => false
  | null => false
  | nan => false
  | bool b => b
  | num n => n != 0
  | str s => s != ""
  | arr1 _ => true
  | arr2 _ _ => true

/-- JavaScript strict equality `===`.  `NaN` is not equal to itself;
arrays compare by reference, and the program never compares an array
with itself, so array comparisons are `false`. -/
def strictEq : JSVal → JSVal → Bool
  | undef, undef => true
  | null, null => true
  | bool a, bool b => a == b
  | num a, num b => a == b
  | str a, str b => a == b
  | _, _ => false

/-- JavaScript `String.prototype.trim`: strip leading and trailing
whitespace. -/
def jsTrim (s : String) : String :=
  String.mk (((s.toList.dropWhile Char.isWhitespace).reverse.dropWhile Char.isWhitespace).reverse)

/-- Is this value a string whose `trim()` is empty (the suppression test
of `setExifValue`)?  Matches `typeof value === 'string' && value.trim() === ''`. -/
def isWsStr : JSVal → Bool
  | str s => jsTrim s == ""
  | _ => false

/-- JavaScript string coercion as used by template literals and
`parseInt`/`parseFloat` argument coercion. -/
def jsToString : JSVal → String
  | undef => "undefined"
  | null => "null"
  | nan => "NaN"
  | bool b => if b then "true" else "false"
  | num n => toString n
  | str s => s
  | arr1 x => jsToString x
  | arr2 x y => jsToString x ++ "," ++ jsToString y

/-- JavaScript `a || b`: the first operand if truthy, else the second. -/
def jsOr (a b : JSVal) : JSVal := if truthy a then a else b

/-- Is this value a number (`typeof value === 'number'`)?  `NaN` is a
number in JavaScript. -/
def isNum : JSVal → Bool
  | num _ => true
  | nan => true
  | _ => false

end JSVal

/-! ## fileTypes.js — extension-based format classification -/

/-- Characters of the last path component (Node `path.basename`):
trailing separators are dropped, then everything after the last `/`. -/
def basenameChars (cs : List Char) : List Char :=
  let stripped := (cs.reverse.dropWhile (fun c => c = '/')).reverse
  (stripped.reverse.takeWhile (fun c => c ≠ '/')).reverse

/-- `getFileExtension`: the lowercased text after the last dot of the
base name, or `""` when there is no dot or the dot is the final
character. -/
def getFileExtension (filePath : String) : String :=
  let bs := basenameChars filePath.toList
  match bs.reverse.span (fun c => c ≠ '.') with
  | (_, []) => ""
  | ([], _ :: _) => ""
  | (revExt, _ :: _) => String.mk (revExt.reverse.map Char.toLower)

def isJpegFile (filePath : String) : Bool :=
  getFileExtension filePath ∈ ["jpg", "jpeg"]

def isTiffFile (filePath : String) : Bool :=
  getFileExtension filePath ∈ ["tiff", "tif"]

def isDngFile (filePath : String) : Bool :=
  getFileExtension filePath ∈ ["dng"]

def isRawFile (filePath : String) : Bool :=
  getFileExtension filePath ∈
    ["dng", "cr2", "cr3", "nef", "nrw", "arw", "srf", "sr2", "orf", "rw2",
     "raf", "srw", "pef", "x3f", "erf", "mef", "mrw", "dcr", "kdc", "3fr",
     "fff", "iiq", "k25", "rwl"]

def isSupportedFile (filePath : String) : Bool :=
  isJpegFile filePath || isTiffFile filePath || isDngFile filePath || isRawFile filePath

def getFileType (filePath : String) : String :=
  if isJpegFile filePath then "jpeg"
  else if isTiffFile filePath then "tiff"
  else if isDngFile filePath then "dng"
  else if isRawFile filePath then "raw"
  else "unknown"

/-! ## tags.js — EXIF tag mapping and value suppression -/

/-- The five sub-sections of a `piexif` EXIF object. -/
inductive Ifd where
  | zeroth
  | exif
  | gps
  | interop
  | first
  deriving DecidableEq, Repr

/-- The semantic field names of the `EXIF_TAGS` table. -/
inductive ConfigKey where
  | cameraMaker
  | cameraModel
  | lensMaker
  | lensModel
  | focalLength
  | fNumber
  | filmISO
  | shotISO
  | photographer
  deriving DecidableEq, Repr

/-- `EXIF_TAGS`: the fixed semantic-field → (IFD, tag id) table, with the
numeric constants of `piexif` (`ImageIFD.Make = 271`, …). -/
def EXIF_TAGS : ConfigKey → Ifd × Nat
  | .cameraMaker => (.zeroth, 271)
  | .cameraModel => (.zeroth, 272)
  | .lensMaker => (.exif, 42035)
  | .lensModel => (.exif, 42036)
  | .focalLength => (.exif, 37386)
  | .fNumber => (.exif, 33437)
  | .filmISO => (.exif, 34855)
  | .shotISO => (.exif, 34867)
  | .photographer => (.zeroth, 315)

/-- An IFD bucket: a JavaScript object mapping numeric tag ids to values,
modelled as an insertion-ordered association list with unique keys. -/
abbrev TagBucket := List (Nat × JSVal)

/-- Property read `obj[k]` on a bucket. -/
def lookupTag : TagBucket → Nat → Option JSVal
  | [], _ => none
  | (k', v) :: rest, k => if k' = k then some v else lookupTag rest k

/-- Property write `obj[k] = v` on a bucket: replace in place when the
key exists, append otherwise. -/
def setTag (l : TagBucket) (k : Nat) (v : JSVal) : TagBucket :=
  match l with
  | [] => [(k, v)]
  | (k', v') :: rest =>
      if k' = k then (k, v) :: rest else (k', v') :: setTag rest k v

/-- A `piexif` EXIF object: the five IFD buckets plus the thumbnail slot. -/
structure ExifObj where
  zeroth : TagBucket
  exif : TagBucket
  gps : TagBucket
  interop : TagBucket
  first : TagBucket
  thumbnail : JSVal
  deriving DecidableEq, Repr

def ExifObj.getBucket (o : ExifObj) : Ifd → TagBucket
  | .zeroth => o.zeroth
  | .exif => o.exif
  | .gps => o.gps
  | .interop => o.interop
  | .first => o.first

def ExifObj.setBucket (o : ExifObj) (i : Ifd) (l : TagBucket) : ExifObj :=
  match i with
  | .zeroth => { o with zeroth := l }
  | .exif => { o with exif := l }
  | .gps => { o with gps := l }
  | .interop => { o with interop := l }
  | .first => { o with first := l }

/-- `createCleanExifObject`: all sub-sections empty, thumbnail `null`. -/
def createCleanExifObject : ExifObj :=
  { zeroth := [], exif := [], gps := [], interop := [], first := [], thumbnail := .null }

/-- `setExifValue`: no-op for falsy values and for all-whitespace strings;
otherwise writes the value into the bucket named by `EXIF_TAGS`.  (The
source lazily creates the bucket first; buckets always exist in this
model, which makes that step a no-op.) -/
def setExifValue (o : ExifObj) (key : ConfigKey) (v : JSVal) : ExifObj :=
  if v.truthy = false ∨ v.isWsStr = true then o
  else
    let loc := EXIF_TAGS key
    o.setBucket loc.1 (setTag (o.getBucket loc.1) loc.2 v)

/-- A field is present in the output object when its tag id has a value
in its bucket (regardless of the value). -/
def hasField (o : ExifObj) (i : Ifd) (t : Nat) : Bool :=
  (lookupTag (o.getBucket i) t).isSome

/-! ## models.js — equipment records, and the Selection shape -/

/-- A camera record: the fields the codec layer reads. -/
structure Camera where
  maker : JSVal
  model : JSVal
  deriving DecidableEq, Repr

/-- A lens record: the fields the codec layer reads (`mount` is never
read by the codecs and is omitted). -/
structure Lens where
  maker : JSVal
  model : JSVal
  focalLength : JSVal
  aperture : JSVal
  deriving DecidableEq, Repr

/-- `Lens.getLensModelWithAperture`: joins the model, focal length with
`mm` suffix, and aperture with `f/` prefix, keeping only truthy parts. -/
def Lens.getLensModelWithAperture (l : Lens) : String :=
  String.intercalate " "
    ((if l.model.truthy then [l.model.jsToString] else [])
      ++ (if l.focalLength.truthy then [l.focalLength.jsToString ++ "mm"] else [])
      ++ (if l.aperture.truthy then ["f/" ++ l.aperture.jsToString] else []))

/-- A film record. -/
structure Film where
  maker : JSVal
  name : JSVal
  iso : JSVal
  deriving DecidableEq, Repr

/-- The `setup` sub-object of a Selection; camera or lens may be absent. -/
structure SetupShape where
  camera : Option Camera
  lens : Option Lens
  deriving DecidableEq, Repr

/-- The Selection object handed to the codec layer; `setup` and `film`
may be absent. -/
structure Selection where
  setup : Option SetupShape
  film : Option Film
  shotISO : JSVal
  photographer : JSVal
  deriving DecidableEq, Repr

/-- The projection of a Selection that passed validation: setup, camera,
lens and film are all present. -/
structure SelectionData where
  camera : Camera
  lens : Lens
  film : Film
  shotISO : JSVal
  photographer : JSVal
  deriving DecidableEq, Repr

/-- Extract the validated parts of a Selection, when they are all present. -/
def projectSelection (sel : Option Selection) : Option SelectionData :=
  match sel with
  | none => none
  | some s =>
      match s.setup, s.film with
      | some st, some film =>
          match st.camera, st.lens with
          | some cam, some lens =>
              some { camera := cam, lens := lens, film := film,
                     shotISO := s.shotISO, photographer := s.photographer }
          | _, _ => none
      | _, _ => none

/-- `JpegProcessor.validateSelection`: throws unless the selection, its
setup with camera and lens, and its film are all present. -/
def JpegProcessor.validateSelection (sel : Option Selection) : Except String Unit :=
  match sel with
  | none => .error "Selection object is required"
  | some s =>
      match s.setup with
      | none => .error "Selection must include setup with camera and lens"
      | some st =>
          if st.camera.isNone then .error "Selection must include setup with camera and lens"
          else if st.lens.isNone then .error "Selection must include setup with camera and lens"
          else match s.film with
            | none => .error "Selection must include film information"
            | some _ => .ok ()

/-- `TiffProcessor.validateSelection`: textually identical to the JPEG
processor's validation. -/
def TiffProcessor.validateSelection (sel : Option Selection) : Except String Unit :=
  match sel with
  | none => .error "Selection object is required"
  | some s =>
      match s.setup with
      | none => .error "Selection must include setup with camera and lens"
      | some st =>
          if st.camera.isNone then .error "Selection must include setup with camera and lens"
          else if st.lens.isNone then .error "Selection must include setup with camera and lens"
          else match s.film with
            | none => .error "Selection must include film information"
            | some _ => .ok ()

/-! ## Numeric coercions used by setAllExifValues -/

/-- Value of a list of decimal digit characters. -/
def digitsVal (cs : List Char) : Nat :=
  cs.foldl (fun acc c => acc * 10 + (c.toNat - '0'.toNat)) 0

/-- JavaScript `parseInt` on an already-coerced string: skip leading
whitespace, optional sign, then the longest digit prefix; `NaN` when no
digit follows. -/
def parseIntChars (cs : List Char) : JSVal :=
  let cs := cs.dropWhile Char.isWhitespace
  let (neg, cs) :=
    match cs with
    | '-' :: rest => (true, rest)
    | '+' :: rest => (false, rest)
    | _ => (false, cs)
  let digits := cs.takeWhile Char.isDigit
  if digits.isEmpty then .nan
  else .num (if neg then -(digitsVal digits : Int) else (digitsVal digits : Int))

/-- `parseInt(value)` as used on `lens.focalLength`. -/
def parseIntJS (v : JSVal) : JSVal := parseIntChars v.jsToString.toList

/-- JavaScript `Math.round(parseFloat(value) * 10)` as used on
`lens.aperture`, computed exactly on decimal strings of the form
`[sign] digits [. digits]` (rounding is half toward positive infinity). -/
def parseFloatTimes10Round (v : JSVal) : JSVal :=
  let cs := v.jsToString.toList.dropWhile Char.isWhitespace
  let (neg, cs) :=
    match cs with
    | '-' :: rest => (true, rest)
    | '+' :: rest => (false, rest)
    | _ => (false, cs)
  let intPart := cs.takeWhile Char.isDigit
  let rest := cs.dropWhile Char.isDigit
  let fracPart :=
    match rest with
    | '.' :: r => r.takeWhile Char.isDigit
    | _ => []
  if intPart.isEmpty ∧ fracPart.isEmpty then .nan
  else
    let scale : Nat := 10 ^ fracPart.length
    let mantissa : Int := (digitsVal intPart : Int) * scale + (digitsVal fracPart : Int)
    let signed : Int := if neg then -mantissa else mantissa
    .num (Int.fdiv (20 * signed + scale) (2 * scale))

/-! ## jpegProcessor.js — populate tiers and erase -/

/-- The shot-ISO guard of `setAllExifValues` and `createBasicExif`:
`selection.shotISO && selection.shotISO !== selection.film.iso`. -/
def shotISOGuard (sd : SelectionData) : Bool :=
  sd.shotISO.truthy && !(JSVal.strictEq sd.shotISO sd.film.iso)

/-- `JpegProcessor.setAllExifValues`: the full-tier population, writing
each field through `setExifValue` in source order. -/
def JpegProcessor.setAllExifValues (o : ExifObj) (sd : SelectionData) : ExifObj :=
  let o := setExifValue o .cameraMaker sd.camera.maker
  let o := setExifValue o .cameraModel sd.camera.model
  let o := setExifValue o .photographer sd.photographer
  let o := setExifValue o .filmISO (.arr1 sd.film.iso)
  let o := if shotISOGuard sd then setExifValue o .shotISO sd.shotISO else o
  let o := setExifValue o .lensMaker sd.lens.maker
  let o := setExifValue o .lensModel (.str sd.lens.getLensModelWithAperture)
  let o := if sd.lens.focalLength.truthy then
             setExifValue o .focalLength (.arr2 (parseIntJS sd.lens.focalLength) (.num 1))
           else o
  let o := if sd.lens.aperture.truthy then
             setExifValue o .fNumber (.arr2 (parseFloatTimes10Round sd.lens.aperture) (.num 10))
           else o
  o

/-- The EXIF object built by `JpegProcessor.createBasicExif` before it is
serialized: conditional direct assignments of the basic tags onto a
clean object. -/
def JpegProcessor.createBasicExifObj (sd : SelectionData) : ExifObj :=
  { zeroth :=
      (if sd.camera.maker.truthy then [(271, sd.camera.maker)] else [])
        ++ (if sd.camera.model.truthy then [(272, sd.camera.model)] else [])
        ++ (if sd.photographer.truthy then [(315, sd.photographer)] else []),
    exif :=
      (if sd.film.iso.truthy then [(34855, JSVal.arr1 sd.film.iso)] else [])
        ++ (if shotISOGuard sd then [(34867, sd.shotISO)] else []),
    gps := [], interop := [], first := [], thumbnail := .null }

/-- The EXIF object built by `JpegProcessor.createMinimalExif` before it
is serialized: Make/Model/Artist always present (placeholder `'Unknown'`
when falsy), the film ISO sequence always present, and the shot ISO only
when it is truthy, differs from the film ISO, and is a number. -/
def JpegProcessor.createMinimalExifObj (sd : SelectionData) : ExifObj :=
  { zeroth :=
      [(271, JSVal.jsOr sd.camera.maker (.str "Unknown")),
       (272, JSVal.jsOr sd.camera.model (.str "Unknown")),
       (315, JSVal.jsOr sd.photographer (.str "Unknown"))],
    exif :=
      [(34855, JSVal.arr1 sd.film.iso)]
        ++ (if shotISOGuard sd && sd.shotISO.isNum then [(34867, sd.shotISO)] else []),
    gps := [], interop := [], first := [], thumbnail := .null }

/-- A segment of a parsed JPEG container: either an EXIF APP1 segment or
any other segment (markers, scan/pixel data). -/
inductive JpegSegment where
  | exifSeg (payload : List Nat)
  | plain (marker : Nat) (payload : List Nat)
  deriving DecidableEq, Repr

/-- Modelled from the spec: `piexif.remove` (third-party library used by
`eraseExifFromFile`), described as "parse the container, strip any EXIF
segment entirely, write back" with all non-EXIF bytes passing through
unmodified.  On a parsed well-formed JPEG it keeps every non-EXIF
segment and drops every EXIF segment. -/
def isPlainSeg : JpegSegment → Bool
  | .exifSeg _ => false
  | .plain _ _ => true

def piexifRemove (segs : List JpegSegment) : List JpegSegment :=
  segs.filter isPlainSeg

/-- The pixel/scan content of a JPEG: its non-EXIF segments. -/
def pixelContent (segs : List JpegSegment) : List JpegSegment :=
  segs.filter isPlainSeg

/-- `JpegProcessor.eraseExifFromFile` on a well-formed JPEG: read the
bytes, remove the EXIF segment(s), write back, report success.  Returns
the success flag and the bytes written back. -/
def JpegProcessor.eraseExifFromFile (segs : List JpegSegment) : Bool × List JpegSegment :=
  (true, piexifRemove segs)

/-! ## sidecarProcessor.js — XMP sidecar generation -/

/-- The fixed header of the generated XMP document, up to the first
interpolated value. -/
def xmpHeader : String :=
  "<?xml version=\"1.0\" encoding=\"UTF-8\"?>\n"
    ++ "<x:xmpmeta xmlns:x=\"adobe:ns:meta/\" x:xmptk=\"IFEX CLI\">\n"
    ++ "  <rdf:RDF xmlns:rdf=\"http://www.w3.org/1999/02/22-rdf-syntax-ns#\">\n"
    ++ "    <rdf:Description rdf:about=\"\"\n"
    ++ "        xmlns:tiff=\"http://ns.adobe.com/tiff/1.0/\"\n"
    ++ "        xmlns:exif=\"http://ns.adobe.com/exif/1.0/\"\n"
    ++ "        xmlns:dc=\"http://purl.org/dc/elements/1.1/\">\n"

/-- `generateXmpSidecar`: renders the fixed XMP template.  Accessing
`selection.setup.camera.maker`, `selection.setup.lens.maker` or
`selection.film.iso` on an absent object throws a `TypeError`, modelled
as `Except.error`; every other value is coerced to text by the template
literal (absent scalars become the text `undefined`).  Only the
`exif:PhotographicSensitivity` element is conditional, on a truthy
`shotISO`. -/
def generateXmpSidecar (sel : Selection) : Except String String :=
  match sel.setup with
  | none => .error "TypeError"
  | some st =>
      match st.camera with
      | none => .error "TypeError"
      | some cam =>
          match st.lens with
          | none => .error "TypeError"
          | some lens =>
              match sel.film with
              | none => .error "TypeError"
              | some film =>
                  .ok (xmpHeader
                    ++ "      <tiff:Make>" ++ cam.maker.jsToString ++ "</tiff:Make>\n"
                    ++ "      <tiff:Model>" ++ cam.model.jsToString ++ "</tiff:Model>\n"
                    ++ "      <exif:LensMake>" ++ lens.maker.jsToString ++ "</exif:LensMake>\n"
                    ++ "      <exif:LensModel>" ++ lens.getLensModelWithAperture ++ "</exif:LensModel>\n"
                    ++ "      <exif:ISOSpeedRatings>\n"
                    ++ "        <rdf:Seq>\n"
                    ++ "          <rdf:li>" ++ film.iso.jsToString ++ "</rdf:li>\n"
                    ++ "        </rdf:Seq>\n"
                    ++ "      </exif:ISOSpeedRatings>\n"
                    ++ "      "
                    ++ (if sel.shotISO.truthy then
                          "<exif:PhotographicSensitivity>" ++ sel.shotISO.jsToString
                            ++ "</exif:PhotographicSensitivity>"
                        else "")
                    ++ "\n      <dc:creator>\n"
                    ++ "        <rdf:Seq>\n"
                    ++ "          <rdf:li>" ++ sel.photographer.jsToString ++ "</rdf:li>\n"
                    ++ "        </rdf:Seq>\n"
                    ++ "      </dc:creator>\n"
                    ++ "    </rdf:Description>\n"
                    ++ "  </rdf:RDF>\n"
                    ++ "</x:xmpmeta>")

/-- The outcome of `createSidecarFile`: the returned boolean and, when a
file was written, its path and content. -/
structure SidecarOutcome where
  success : Bool
  written : Option (String × String)
  deriving DecidableEq, Repr

/-- `createSidecarFile`: renders the XMP document and writes it at
`filePath + ".xmp"`; any thrown error (a `TypeError` from the template,
or a filesystem write failure, modelled by `writeOk = false`) is caught
and reported as `false`. -/
def createSidecarFile (filePath : String) (sel : Option Selection) (writeOk : Bool) :
    SidecarOutcome :=
  match sel with
  | none => ⟨false, none⟩
  | some s =>
      match generateXmpSidecar s with
      | .error _ => ⟨false, none⟩
      | .ok doc => if writeOk then ⟨true, some (filePath ++ ".xmp", doc)⟩ else ⟨false, none⟩

/-- `removeSidecarFile`: deletes `filePath + ".xmp"` when it exists and
returns whether a file was removed; `sidecarExists` models
`fs.existsSync(filePath + '.xmp')`. -/
def removeSidecarFile (sidecarExists : Bool) : Bool :=
  if sidecarExists then true else false

/-! ## tiffProcessor.js — TIFF/DNG apply -/

/-- A decoded TIFF page as produced by `UTIF.decode`: the `width` and
`height` properties plus the `tNNN` tag slots. -/
structure Tiff where
  width : JSVal
  height : JSVal
  tags : TagBucket
  deriving DecidableEq, Repr

/-- Property read `tiff.tNNN` (`undefined` when the slot is absent). -/
def Tiff.getT (t : Tiff) (k : Nat) : JSVal :=
  ((lookupTag t.tags k).getD .undef)

/-- Property write `tiff.tNNN = v`. -/
def Tiff.setT (t : Tiff) (k : Nat) (v : JSVal) : Tiff :=
  { t with tags := setTag t.tags k v }

/-- `TiffProcessor.setTiffExifValues`: width/height defaults, then the
raw tag-slot assignments.  The shot ISO goes into slot `t34864`
(SensitivityType) whenever it is truthy; slot 34867 is never written. -/
def TiffProcessor.setTiffExifValues (t : Tiff) (sd : SelectionData) : Tiff :=
  let t := t.setT 256 (JSVal.jsOr (t.getT 256) t.width)
  let t := t.setT 257 (JSVal.jsOr (t.getT 257) t.height)
  let t := t.setT 271 sd.camera.maker
  let t := t.setT 272 sd.camera.model
  let t := t.setT 42035 sd.lens.maker
  let t := t.setT 42036 (.str sd.lens.getLensModelWithAperture)
  let t := t.setT 34855 (.arr1 sd.film.iso)
  let t := if sd.shotISO.truthy then t.setT 34864 sd.shotISO else t
  t.setT 315 sd.photographer

/-- The observable outcome of a TIFF/DNG apply: the returned boolean,
whether an XMP sidecar was written, and whether the TIFF file itself was
rewritten. -/
structure TiffApplyResult where
  success : Bool
  sidecarWritten : Bool
  fileWritten : Bool
  deriving DecidableEq, Repr

/-- `TiffProcessor.applyExifToFile`.  `decodeRes` models `UTIF.decode`
(`.error` = the library threw); `encodeOk` models `UTIF.encode`
succeeding; `writeOk` models the TIFF overwrite succeeding;
`sidecarWriteOk` models the sidecar filesystem write succeeding.  A
decode throw, an encode throw, or a failed overwrite all route to
`createSidecarFile`; a decode yielding zero pages throws and is caught
by the outer handler, returning `false`. -/
def TiffProcessor.applyExifToFile (filePath : String) (sel : Option Selection)
    (decodeRes : Except String (List Tiff)) (encodeOk writeOk sidecarWriteOk : Bool) :
    TiffApplyResult :=
  match TiffProcessor.validateSelection sel with
  | .error _ => ⟨false, false, false⟩
  | .ok _ =>
      match decodeRes with
      | .error _ =>
          let s := createSidecarFile filePath sel sidecarWriteOk
          ⟨s.success, s.written.isSome, false⟩
      | .ok [] => ⟨false, false, false⟩
      | .ok (_ :: _) =>
          match projectSelection sel with
          | none => ⟨false, false, false⟩
          | some _ =>
              if encodeOk && writeOk then ⟨true, false, true⟩
              else
                let s := createSidecarFile filePath sel sidecarWriteOk
                ⟨s.success, s.written.isSome, false⟩

/-! ## rawProcessor.js — non-DNG RAW erase -/

/-- `RawProcessor.eraseExifFromFile`: DNG files delegate to the TIFF
eraser (outcome `tiffEraseResult`); every other RAW format removes the
sidecar file if present and returns `true` whether or not one existed. -/
def RawProcessor.eraseExifFromFile (filePath : String) (sidecarExists : Bool)
    (tiffEraseResult : Bool) : Bool :=
  if isDngFile filePath then tiffEraseResult
  else
    let removed := removeSidecarFile sidecarExists
    if removed then true else true

/-! ## fileCollector.js — batch processing -/

/-- A file discovered by `collectFilesRecursively`. -/
structure CollectedFile where
  name : String
  path : String
  directory : String
  deriving DecidableEq, Repr

/-- The per-file record pushed into `results.files`. -/
structure ProcessingResult where
  name : String
  ftype : String
  directory : String
  success : Bool
  deriving DecidableEq, Repr

/-- The aggregate `results` object of `processFolder`. -/
structure BatchResults where
  total : Nat
  processed : Nat
  failed : Nat
  files : List ProcessingResult
  deriving DecidableEq, Repr

/-- The two batch actions. -/
inductive BatchAction where
  | apply
  | erase
  deriving DecidableEq, Repr

/-- `processFolder` returns `{success:false, message}` or
`{success:true, results}`. -/
inductive FolderOutcome where
  | failure (message : String)
  | success (results : BatchResults)
  deriving DecidableEq, Repr

/-- The loop body of `processFolder`: run the orchestrator on one file,
push a `ProcessingResult` regardless of outcome, bump one tally. -/
def batchStep (proc : CollectedFile → Bool) (acc : BatchResults) (file : CollectedFile) :
    BatchResults :=
  let s := proc file
  { total := acc.total,
    processed := acc.processed + (if s then 1 else 0),
    failed := acc.failed + (if s then 0 else 1),
    files := acc.files ++ [⟨file.name, getFileType file.name, file.directory, s⟩] }

/-- The per-file dispatch of the `processFolder` loop: the orchestrator's
apply for the apply action, its erase for the erase action. -/
def actionProc (action : BatchAction) (applyFile eraseFile : CollectedFile → Bool) :
    CollectedFile → Bool :=
  fun f =>
    match action with
    | .apply => applyFile f
    | .erase => eraseFile f

/-- `FileCollector.processFolder`, with the folder enumeration abstracted
into its result `supportedFiles` and the orchestrator's per-file apply
and erase calls abstracted as boolean-valued functions (both catch their
own errors in the source and always return a boolean). -/
def processFolder (supportedFiles : List CollectedFile) (recursive : Bool)
    (action : BatchAction) (applyFile eraseFile : CollectedFile → Bool) : FolderOutcome :=
  if supportedFiles.isEmpty then
    .failure ("No supported image files (JPEG, TIFF, DNG, RAW) found in the specified folder"
      ++ (if recursive then " (including subdirectories)" else "") ++ ".")
  else
    .success (supportedFiles.foldl (batchStep (actionProc action applyFile eraseFile))
      { total := supportedFiles.length, processed := 0, failed := 0, files := [] })

/-! ## Derived notions used by the claims -/

/-- The populated full-tier EXIF object: apply step 2 starting from a
clean object (the "intended field set" of the full tier). -/
def fullPopulate (sd : SelectionData) : ExifObj :=
  JpegProcessor.setAllExifValues createCleanExifObject sd

/-- A value that is null, undefined, or an all-whitespace string (the
spec's description of a suppressed optional string value). -/
def emptyish : JSVal → Bool
  | .null => true
  | .undef => true
  | .str s => JSVal.jsTrim s == ""
  | _ => false

/-- Does `pat` occur as a contiguous run of `l`? -/
def charsContain (pat : List Char) : List Char → Bool
  | [] => pat.isEmpty
  | c :: rest => pat.isPrefixOf (c :: rest) || charsContain pat rest

/-- Substring occurrence test on strings. -/
def strContains (s pat : String) : Bool :=
  charsContain pat.toList s.toList

/-! ## Helper lemmas -/

theorem lookupTag_setTag (l : TagBucket) (k t : Nat) (v : JSVal) :
    lookupTag (setTag l k v) t = if t = k then some v else lookupTag l t := by
  induction l with
  | nil =>
      simp only [setTag, lookupTag]
      by_cases h : t = k
      · simp [h]
      · have h' : ¬ k = t := fun hh => h hh.symm
        simp [h, h']
  | cons p rest ih =>
      obtain ⟨k', v'⟩ := p
      by_cases hk : k' = k
      · subst hk
        simp only [setTag, if_pos rfl, lookupTag]
        by_cases ht : t = k'
        · simp [ht]
        · have h' : ¬ k' = t := fun hh => ht hh.symm
          simp [ht, h']
      · simp only [setTag, if_neg hk, lookupTag]
        by_cases ht : k' = t
        · subst ht
          have hnk : ¬ k' = k := hk
          simp [hnk]
        · simp [ht, ih]

theorem getBucket_setBucket (o : ExifObj) (i j : Ifd) (l : TagBucket) :
    (o.setBucket i l).getBucket j = if j = i then l else o.getBucket j := by
  cases i <;> cases j <;> simp [ExifObj.setBucket, ExifObj.getBucket]

theorem lookupTag_setExifValue (o : ExifObj) (key : ConfigKey) (v : JSVal)
    (i : Ifd) (t : Nat) :
    lookupTag ((setExifValue o key v).getBucket i) t =
      if (v.truthy = true ∧ v.isWsStr = false) ∧ (i, t) = EXIF_TAGS key
      then some v else lookupTag (o.getBucket i) t := by
  unfold setExifValue
  by_cases hv : v.truthy = false ∨ v.isWsStr = true
  · have : ¬ ((v.truthy = true ∧ v.isWsStr = false) ∧ (i, t) = EXIF_TAGS key) := by
      rintro ⟨⟨h1, h2⟩, -⟩
      rcases hv with h | h
      · rw [h1] at h; exact absurd h (by decide)
      · rw [h2] at h; exact absurd h (by decide)
    simp [hv, this]
  · push_neg at hv
    obtain ⟨h1, h2⟩ := hv
    have h1' : v.truthy = true := by
      cases hcase : v.truthy
      · exact absurd hcase h1
      · rfl
    have h2' : v.isWsStr = false := by
      cases hcase : v.isWsStr
      · rfl
      · exact absurd hcase h2
    have hcond : ¬ (v.truthy = false ∨ v.isWsStr = true) := by
      rintro (h | h)
      · exact h1 h
      · exact h2 h
    simp only [hcond, if_false]
    rw [getBucket_setBucket]
    by_cases hi : i = (EXIF_TAGS key).1
    · subst hi
      rw [if_pos rfl, lookupTag_setTag]
      by_cases ht : t = (EXIF_TAGS key).2
      · subst ht
        simp [h1', h2']
      · have : ¬ ((EXIF_TAGS key).1, t) = EXIF_TAGS key := by
          intro h
          exact ht (congrArg Prod.snd h)
        simp [ht, h1', h2', this]
    · have : ¬ (i, t) = EXIF_TAGS key := by
        intro h
        exact hi (congrArg Prod.fst h)
      simp [hi, this]

theorem validateSelection_eq_project (sel : Option Selection) :
    (JpegProcessor.validateSelection sel = .ok ()) ↔ (projectSelection sel).isSome := by
  cases sel with
  | none => simp [JpegProcessor.validateSelection, projectSelection]
  | some s =>
      cases hst : s.setup with
      | none => simp [JpegProcessor.validateSelection, projectSelection, hst]
      | some st =>
          cases hfilm : s.film <;> cases hcam : st.camera <;> cases hlens : st.lens <;>
            simp [JpegProcessor.validateSelection, projectSelection, hst, hfilm, hcam, hlens]

theorem lookupTag_setExifValue_ite (c : Prop) [Decidable c] (o : ExifObj) (key : ConfigKey)
    (v : JSVal) (i : Ifd) (t : Nat) :
    lookupTag (((if c then setExifValue o key v else o)).getBucket i) t =
      if c ∧ (v.truthy = true ∧ v.isWsStr = false) ∧ (i, t) = EXIF_TAGS key
      then some v else lookupTag (o.getBucket i) t := by
  by_cases hc : c
  · simp only [hc, if_true, true_and]
    exact lookupTag_setExifValue o key v i t
  · simp [hc]

theorem lookupTag_append (l1 l2 : TagBucket) (t : Nat) :
    lookupTag (l1 ++ l2) t = (lookupTag l1 t).or (lookupTag l2 t) := by
  induction l1 with
  | nil => simp [lookupTag]
  | cons p rest ih =>
      obtain ⟨k, v⟩ := p
      by_cases hk : k = t
      · simp [lookupTag, hk]
      · simp [lookupTag, hk, ih]

theorem lookupTag_if_singleton (c : Prop) [Decidable c] (k : Nat) (v : JSVal) (t : Nat) :
    lookupTag (if c then [(k, v)] else []) t = if c ∧ k = t then some v else none := by
  by_cases hc : c
  · by_cases hk : k = t
    · simp [hc, hk, lookupTag]
    · simp [hc, hk, lookupTag]
  · simp [hc, lookupTag]

theorem emptyish_no_write (v : JSVal) (h : emptyish v = true) :
    v.truthy = false ∨ v.isWsStr = true := by
  cases v with
  | str s =>
      right
      simpa [emptyish, JSVal.isWsStr] using h
  | null => left; rfl
  | undef => left; rfl
  | nan => simp [emptyish] at h
  | bool b => simp [emptyish] at h
  | num n => simp [emptyish] at h
  | arr1 x => simp [emptyish] at h
  | arr2 x y => simp [emptyish] at h

theorem option_isSome_or (a b : Option JSVal) :
    (a.or b).isSome = (a.isSome || b.isSome) := by
  cases a <;> cases b <;> rfl

theorem isSome_if_eq (c : Prop) [Decidable c] (v : JSVal) :
    ((if c then some v else (none : Option JSVal)).isSome = true) ↔ c := by
  by_cases h : c <;> simp [h]

theorem bool_and_false_right {a b : Bool} (h : (a && b) = false) (ha : a = true) :
    b = false := by
  subst ha
  cases b
  · rfl
  · exact absurd h (by decide)

/-! ## Claim theorems -/

/-- C9: `setExifValue` leaves the EXIF store completely unchanged for
every falsy value — not only null, undefined and all-whitespace strings,
but also the number 0 and `false` — so a zero ISO, zero focal length or
zero f-number is silently dropped and never written to any segment
bucket. -/
theorem claim_C9_setExifValue_falsy_noop :
    (∀ (o : ExifObj) (k : ConfigKey) (v : JSVal),
        v.truthy = false → setExifValue o k v = o)
    ∧ (∀ (o : ExifObj) (k : ConfigKey), setExifValue o k (.num 0) = o)
    ∧ (∀ (o : ExifObj) (k : ConfigKey), setExifValue o k (.bool false) = o)
    ∧ (∀ (o : ExifObj) (k : ConfigKey), setExifValue o k .null = o)
    ∧ (∀ (o : ExifObj) (k : ConfigKey), setExifValue o k .undef = o)
    ∧ (∀ (o : ExifObj) (k : ConfigKey) (s : String),
        JSVal.jsTrim s = "" → setExifValue o k (.str s) = o) := by
  refine ⟨?_, ?_, ?_, ?_, ?_, ?_⟩
  · intro o k v h
    simp [setExifValue, h]
  · intro o k
    simp [setExifValue, JSVal.truthy]
  · intro o k
    simp [setExifValue, JSVal.truthy]
  · intro o k
    simp [setExifValue, JSVal.truthy]
  · intro o k
    simp [setExifValue, JSVal.truthy]
  · intro o k s h
    simp [setExifValue, JSVal.isWsStr, h]

/-- C9 witness: the general falsy no-op applied at the number 0 and the
whitespace-only string, evaluated on the clean EXIF object. -/
theorem claim_C9_witness :
    (JSVal.num 0).truthy = false
    ∧ setExifValue createCleanExifObject .filmISO (.num 0) = createCleanExifObject
    ∧ JSVal.jsTrim " " = ""
    ∧ setExifValue createCleanExifObject .photographer (.str " ") = createCleanExifObject :=
  ⟨by decide,
   claim_C9_setExifValue_falsy_noop.1 createCleanExifObject .filmISO (.num 0) (by decide),
   by decide,
   claim_C9_setExifValue_falsy_noop.2.2.2.2.2 createCleanExifObject .photographer " " (by decide)⟩

/-- C1 counterexample: a Selection with camera and film but no lens is
rejected by both validation paths, contradicting the claim that it
passes the apply precondition. -/
theorem claim_C1_counterexample :
    JpegProcessor.validateSelection
        (some { setup := some { camera := some { maker := .str "Canon", model := .str "AE-1" },
                                lens := none },
                film := some { maker := .str "Kodak", name := .str "Portra", iso := .num 400 },
                shotISO := .undef, photographer := .str "Jane Doe" })
      = .error "Selection must include setup with camera and lens"
    ∧ TiffProcessor.validateSelection
        (some { setup := some { camera := some { maker := .str "Canon", model := .str "AE-1" },
                                lens := none },
                film := some { maker := .str "Kodak", name := .str "Portra", iso := .num 400 },
                shotISO := .undef, photographer := .str "Jane Doe" })
      = .error "Selection must include setup with camera and lens" :=
  ⟨rfl, rfl⟩

/-- C1 amended: both apply paths accept a Selection exactly when setup,
camera, lens and film are all present.  A lens-less Selection is
rejected before any byte is touched; a provided lens is never inspected
(so a lens lacking its own maker is not rejected); both validation
functions agree. -/
theorem claim_C1_amended_validation :
    (∀ (cam : Camera) (lens : Lens) (film : Film) (si ph : JSVal),
        JpegProcessor.validateSelection
            (some { setup := some { camera := some cam, lens := some lens },
                    film := some film, shotISO := si, photographer := ph }) = .ok ()
        ∧ TiffProcessor.validateSelection
            (some { setup := some { camera := some cam, lens := some lens },
                    film := some film, shotISO := si, photographer := ph }) = .ok ())
    ∧ (∀ (cam : Camera) (film : Film) (si ph : JSVal),
        JpegProcessor.validateSelection
            (some { setup := some { camera := some cam, lens := none },
                    film := some film, shotISO := si, photographer := ph })
          = .error "Selection must include setup with camera and lens")
    ∧ (∀ sel : Option Selection,
        TiffProcessor.validateSelection sel = JpegProcessor.validateSelection sel)
    ∧ (∀ sel : Option Selection,
        (JpegProcessor.validateSelection sel = .ok ()) ↔ (projectSelection sel).isSome) := by
  refine ⟨?_, ?_, ?_, validateSelection_eq_project⟩
  · intro cam lens film si ph
    exact ⟨rfl, rfl⟩
  · intro cam film si ph
    rfl
  · intro sel
    rfl

/-- C10: for a non-DNG RAW file, erase reports success whether or not a
sidecar file existed; in particular `removeSidecarFile` returns `false`
when no `path + ".xmp"` file is present, and the erase still returns
`true`. -/
theorem claim_C10_raw_erase_success :
    removeSidecarFile false = false
    ∧ (∀ (filePath : String) (sidecarExists tiffEraseResult : Bool),
        isRawFile filePath = true → isDngFile filePath = false →
        RawProcessor.eraseExifFromFile filePath sidecarExists tiffEraseResult = true) := by
  constructor
  · rfl
  · intro p ex tr _ hdng
    simp [RawProcessor.eraseExifFromFile, hdng]

/-- C10 witness: a Canon CR2 RAW file with no existing sidecar. -/
theorem claim_C10_witness :
    isRawFile "photo.cr2" = true ∧ isDngFile "photo.cr2" = false
    ∧ RawProcessor.eraseExifFromFile "photo.cr2" false true = true :=
  ⟨by decide, by decide,
   claim_C10_raw_erase_success.2 "photo.cr2" false true (by decide) (by decide)⟩

/-- C8: JPEG erase succeeds with no existing EXIF segment (removing
nothing is success, and the bytes are unchanged), and erasing twice in a
row succeeds both times with the pixel content unchanged. -/
theorem claim_C8_jpeg_erase_idempotent :
    ∀ segs : List JpegSegment,
      (JpegProcessor.eraseExifFromFile segs).1 = true
      ∧ (JpegProcessor.eraseExifFromFile (JpegProcessor.eraseExifFromFile segs).2).1 = true
      ∧ pixelContent (JpegProcessor.eraseExifFromFile
            (JpegProcessor.eraseExifFromFile segs).2).2 = pixelContent segs
      ∧ ((∀ s ∈ segs, isPlainSeg s = true) →
          JpegProcessor.eraseExifFromFile segs = (true, segs)) := by
  intro segs
  refine ⟨rfl, rfl, ?_, ?_⟩
  · simp [JpegProcessor.eraseExifFromFile, pixelContent, piexifRemove, List.filter_filter]
  · intro h
    simp [JpegProcessor.eraseExifFromFile, piexifRemove, List.filter_eq_self.mpr h]

/-- C8 witness: a two-segment JPEG with no EXIF segment, erased twice. -/
theorem claim_C8_witness :
    (JpegProcessor.eraseExifFromFile [JpegSegment.plain 216 [], JpegSegment.plain 218 [1, 2, 3]]).1 = true
    ∧ (JpegProcessor.eraseExifFromFile
        (JpegProcessor.eraseExifFromFile [JpegSegment.plain 216 [], JpegSegment.plain 218 [1, 2, 3]]).2).1 = true
    ∧ pixelContent (JpegProcessor.eraseExifFromFile
        (JpegProcessor.eraseExifFromFile [JpegSegment.plain 216 [], JpegSegment.plain 218 [1, 2, 3]]).2).2
        = pixelContent [JpegSegment.plain 216 [], JpegSegment.plain 218 [1, 2, 3]]
    ∧ JpegProcessor.eraseExifFromFile [JpegSegment.plain 216 [], JpegSegment.plain 218 [1, 2, 3]]
        = (true, [JpegSegment.plain 216 [], JpegSegment.plain 218 [1, 2, 3]]) := by
  have h := claim_C8_jpeg_erase_idempotent [JpegSegment.plain 216 [], JpegSegment.plain 218 [1, 2, 3]]
  exact ⟨h.1, h.2.1, h.2.2.1, h.2.2.2 (by decide)⟩

theorem batch_foldl_spec (proc : CollectedFile → Bool) (fs : List CollectedFile)
    (acc : BatchResults) :
    (fs.foldl (batchStep proc) acc).total = acc.total
    ∧ (fs.foldl (batchStep proc) acc).files.length = acc.files.length + fs.length
    ∧ (fs.foldl (batchStep proc) acc).processed
        = acc.processed + (fs.filter (fun f => proc f)).length
    ∧ (fs.foldl (batchStep proc) acc).failed
        = acc.failed + (fs.filter (fun f => !(proc f))).length := by
  induction fs generalizing acc with
  | nil => simp
  | cons f fs ih =>
      obtain ⟨h1, h2, h3, h4⟩ := ih (batchStep proc acc f)
      simp only [List.foldl_cons]
      refine ⟨?_, ?_, ?_, ?_⟩
      · rw [h1]; rfl
      · rw [h2]
        simp [batchStep]
        omega
      · rw [h3]
        cases hf : proc f <;> simp [batchStep, hf] <;> try omega
      · rw [h4]
        cases hf : proc f <;> simp [batchStep, hf] <;> try omega

theorem length_filter_split {α : Type} (p : α → Bool) (l : List α) :
    (l.filter (fun a => p a)).length + (l.filter (fun a => !(p a))).length = l.length := by
  induction l with
  | nil => rfl
  | cons a l ih => cases h : p a <;> simp [h] <;> omega

/-- C2: for a folder with at least one supported file, `processFolder`
visits every file, records a result for each regardless of outcome, and
tallies `total = N`, `failed = K`, `processed = N - K`,
`files.length = N`; for a folder with zero supported files it returns a
structured failure whose message starts with
"No supported image files". -/
theorem claim_C2_batch_aggregation :
    (∀ (files : List CollectedFile) (recursive : Bool) (action : BatchAction)
        (applyFile eraseFile : CollectedFile → Bool),
      files ≠ [] →
      ∃ res, processFolder files recursive action applyFile eraseFile = .success res
        ∧ res.total = files.length
        ∧ res.files.length = files.length
        ∧ res.failed = (files.filter (fun f => !(actionProc action applyFile eraseFile f))).length
        ∧ res.processed = files.length - res.failed
        ∧ res.processed + res.failed = files.length)
    ∧ (∀ (recursive : Bool) (action : BatchAction)
        (applyFile eraseFile : CollectedFile → Bool),
      ∃ rest, processFolder [] recursive action applyFile eraseFile
        = .failure ("No supported image files" ++ rest)) := by
  constructor
  · intro files recursive action applyFile eraseFile hne
    have hempty : files.isEmpty = false := by
      cases files with
      | nil => exact absurd rfl hne
      | cons f fs => rfl
    unfold processFolder
    rw [hempty]
    simp only [Bool.false_eq_true, if_false]
    obtain ⟨h1, h2, h3, h4⟩ := batch_foldl_spec (actionProc action applyFile eraseFile) files
      { total := files.length, processed := 0, failed := 0, files := [] }
    simp only [List.length_nil, Nat.zero_add] at h2 h3 h4
    refine ⟨_, rfl, h1, h2, h4, ?_, ?_⟩
    · rw [h3, h4]
      have := length_filter_split (actionProc action applyFile eraseFile) files
      omega
    · rw [h3, h4]
      exact length_filter_split (actionProc action applyFile eraseFile) files
  · intro recursive action applyFile eraseFile
    cases recursive with
    | false =>
        refine ⟨" (JPEG, TIFF, DNG, RAW) found in the specified folder.", ?_⟩
        simp only [processFolder, List.isEmpty_nil, if_true]
        decide
    | true =>
        refine ⟨" (JPEG, TIFF, DNG, RAW) found in the specified folder (including subdirectories).",
          ?_⟩
        simp only [processFolder, List.isEmpty_nil, if_true]
        decide

/-- C2 witness: a two-file batch where the apply of one file fails;
both files are recorded and the tallies are 2/1/1. -/
theorem claim_C2_witness :
    ∃ res, processFolder
        [⟨"a.jpg", "/t/a.jpg", "."⟩, ⟨"b.tif", "/t/b.tif", "."⟩] false .apply
        (fun f => decide (f.name = "a.jpg")) (fun _ => true) = .success res
      ∧ res.total = 2 ∧ res.files.length = 2 ∧ res.failed = 1 ∧ res.processed = 1 := by
  obtain ⟨res, h0, h1, h2, h3, h4, h5⟩ :=
    claim_C2_batch_aggregation.1
      [⟨"a.jpg", "/t/a.jpg", "."⟩, ⟨"b.tif", "/t/b.tif", "."⟩] false .apply
      (fun f => decide (f.name = "a.jpg")) (fun _ => true) (by decide)
  refine ⟨res, h0, by rw [h1]; decide, by rw [h2]; decide, by rw [h3]; decide, ?_⟩
  · rw [h4, h3]
    decide

theorem tiff_validate_eq_jpeg :
    TiffProcessor.validateSelection = JpegProcessor.validateSelection := rfl

theorem createSidecar_of_valid (filePath : String) (sel : Option Selection)
    (h : TiffProcessor.validateSelection sel = .ok ()) :
    (createSidecarFile filePath sel true).success = true
    ∧ (createSidecarFile filePath sel true).written.isSome = true := by
  have hp : (projectSelection sel).isSome := by
    rw [tiff_validate_eq_jpeg] at h
    exact (validateSelection_eq_project sel).mp h
  cases sel with
  | none => simp [projectSelection] at hp
  | some s =>
      cases hst : s.setup with
      | none => simp [projectSelection, hst] at hp
      | some st =>
          cases hfilm : s.film with
          | none => simp [projectSelection, hst, hfilm] at hp
          | some film =>
              cases hcam : st.camera with
              | none => simp [projectSelection, hst, hfilm, hcam] at hp
              | some cam =>
                  cases hlens : st.lens with
                  | none => simp [projectSelection, hst, hfilm, hcam, hlens] at hp
                  | some lens =>
                      simp [createSidecarFile, generateXmpSidecar, hst, hfilm, hcam, hlens]

/-- C3: for a TIFF/DNG whose bytes fail to decode, and for one whose
modified tag structure fails to encode, apply with a valid Selection
creates a sidecar file and reports success instead of failing the file —
decode and encode failures on the TIFF/DNG apply path are routing
signals, never fatal (the sidecar filesystem write itself is assumed to
succeed). -/
theorem claim_C3_tiff_decode_encode_routing :
    ∀ (filePath : String) (sel : Option Selection) (e : String) (t : Tiff)
      (tiffs : List Tiff) (encodeOk writeOk : Bool),
      TiffProcessor.validateSelection sel = .ok () →
      ((TiffProcessor.applyExifToFile filePath sel (.error e) encodeOk writeOk true).success = true
        ∧ (TiffProcessor.applyExifToFile filePath sel (.error e) encodeOk writeOk true).sidecarWritten = true
        ∧ (TiffProcessor.applyExifToFile filePath sel (.error e) encodeOk writeOk true).fileWritten = false)
      ∧ ((TiffProcessor.applyExifToFile filePath sel (.ok (t :: tiffs)) false writeOk true).success = true
        ∧ (TiffProcessor.applyExifToFile filePath sel (.ok (t :: tiffs)) false writeOk true).sidecarWritten = true
        ∧ (TiffProcessor.applyExifToFile filePath sel (.ok (t :: tiffs)) false writeOk true).fileWritten = false) := by
  intro filePath sel e t tiffs encodeOk writeOk hval
  obtain ⟨hs, hw⟩ := createSidecar_of_valid filePath sel hval
  have hp : (projectSelection sel).isSome := by
    rw [tiff_validate_eq_jpeg] at hval
    exact (validateSelection_eq_project sel).mp hval
  obtain ⟨sd, hsd⟩ := Option.isSome_iff_exists.mp hp
  constructor
  · simp [TiffProcessor.applyExifToFile, hval, hs, hw, TiffApplyResult.sidecarWritten]
  · simp [TiffProcessor.applyExifToFile, hval, hsd, hs, hw, TiffApplyResult.sidecarWritten]

/-- C3 witness: a concrete valid Selection, a decode failure and an
encode failure, both yielding a written sidecar and success. -/
theorem claim_C3_witness :
    TiffProcessor.validateSelection
        (some { setup := some { camera := some ⟨.str "Leica", .str "M7"⟩,
                                lens := some ⟨.str "Leica", .str "Summicron", .str "35", .str "2"⟩ },
                film := some ⟨.str "Harman", .str "Phoenix", .num 200⟩,
                shotISO := .num 400, photographer := .str "Jane Doe" }) = .ok ()
    ∧ (TiffProcessor.applyExifToFile "scan.tif"
        (some { setup := some { camera := some ⟨.str "Leica", .str "M7"⟩,
                                lens := some ⟨.str "Leica", .str "Summicron", .str "35", .str "2"⟩ },
                film := some ⟨.str "Harman", .str "Phoenix", .num 200⟩,
                shotISO := .num 400, photographer := .str "Jane Doe" })
        (.error "bad tiff") true true true).success = true
    ∧ (TiffProcessor.applyExifToFile "scan.tif"
        (some { setup := some { camera := some ⟨.str "Leica", .str "M7"⟩,
                                lens := some ⟨.str "Leica", .str "Summicron", .str "35", .str "2"⟩ },
                film := some ⟨.str "Harman", .str "Phoenix", .num 200⟩,
                shotISO := .num 400, photographer := .str "Jane Doe" })
        (.error "bad tiff") true true true).sidecarWritten = true
    ∧ (TiffProcessor.applyExifToFile "scan.tif"
        (some { setup := some { camera := some ⟨.str "Leica", .str "M7"⟩,
                                lens := some ⟨.str "Leica", .str "Summicron", .str "35", .str "2"⟩ },
                film := some ⟨.str "Harman", .str "Phoenix", .num 200⟩,
                shotISO := .num 400, photographer := .str "Jane Doe" })
        (.ok [⟨.num 100, .num 80, []⟩]) false true true).success = true
    ∧ (TiffProcessor.applyExifToFile "scan.tif"
        (some { setup := some { camera := some ⟨.str "Leica", .str "M7"⟩,
                                lens := some ⟨.str "Leica", .str "Summicron", .str "35", .str "2"⟩ },
                film := some ⟨.str "Harman", .str "Phoenix", .num 200⟩,
                shotISO := .num 400, photographer := .str "Jane Doe" })
        (.ok [⟨.num 100, .num 80, []⟩]) false true true).sidecarWritten = true := by
  have h := claim_C3_tiff_decode_encode_routing "scan.tif"
    (some { setup := some { camera := some ⟨.str "Leica", .str "M7"⟩,
                            lens := some ⟨.str "Leica", .str "Summicron", .str "35", .str "2"⟩ },
            film := some ⟨.str "Harman", .str "Phoenix", .num 200⟩,
            shotISO := .num 400, photographer := .str "Jane Doe" })
    "bad tiff" ⟨.num 100, .num 80, []⟩ [] true true rfl
  exact ⟨rfl, h.1.1, h.1.2.1, h.2.1, h.2.2.1⟩

/-- C5 counterexample: with `shotISO` equal to `film.iso`, the claim
predicts no shot-ISO tag; the TIFF writer nevertheless writes the shot
ISO — and into tag 34864 (SensitivityType), never into 34867
(ISOSpeed). -/
theorem claim_C5_counterexample :
    lookupTag (TiffProcessor.setTiffExifValues ⟨ .undef, .undef, []⟩
        { camera := ⟨.str "Canon", .str "AE-1"⟩,
          lens := ⟨.str "Canon", .str "FD", .str "50", .str "1.2"⟩,
          film := ⟨.str "Kodak", .str "Portra", .num 400⟩,
          shotISO := .num 400, photographer := .str "Jane Doe" }).tags 34867 = none
    ∧ lookupTag (TiffProcessor.setTiffExifValues ⟨ .undef, .undef, []⟩
        { camera := ⟨.str "Canon", .str "AE-1"⟩,
          lens := ⟨.str "Canon", .str "FD", .str "50", .str "1.2"⟩,
          film := ⟨.str "Kodak", .str "Portra", .num 400⟩,
          shotISO := .num 400, photographer := .str "Jane Doe" }).tags 34864
      = some (.num 400) := by
  constructor
  · rfl
  · rfl

/-- C5 amended: `setTiffExifValues` writes Make→271, Model→272,
LensMake→42035, LensModel→42036, ISOSpeedRatings→34855 and Artist→315 as
the mapping table says, but writes the shot ISO into tag 34864
(SensitivityType) — not 34867 — and does so whenever `shotISO` is
truthy, with no comparison against `film.iso`; tag 34867 is never
touched. -/
theorem claim_C5_amended_tiff_tags :
    ∀ (t : Tiff) (sd : SelectionData),
      lookupTag (TiffProcessor.setTiffExifValues t sd).tags 271 = some sd.camera.maker
      ∧ lookupTag (TiffProcessor.setTiffExifValues t sd).tags 272 = some sd.camera.model
      ∧ lookupTag (TiffProcessor.setTiffExifValues t sd).tags 42035 = some sd.lens.maker
      ∧ lookupTag (TiffProcessor.setTiffExifValues t sd).tags 42036
          = some (.str sd.lens.getLensModelWithAperture)
      ∧ lookupTag (TiffProcessor.setTiffExifValues t sd).tags 34855 = some (.arr1 sd.film.iso)
      ∧ lookupTag (TiffProcessor.setTiffExifValues t sd).tags 315 = some sd.photographer
      ∧ (sd.shotISO.truthy = true →
          lookupTag (TiffProcessor.setTiffExifValues t sd).tags 34864 = some sd.shotISO)
      ∧ (sd.shotISO.truthy = false →
          lookupTag (TiffProcessor.setTiffExifValues t sd).tags 34864 = lookupTag t.tags 34864)
      ∧ lookupTag (TiffProcessor.setTiffExifValues t sd).tags 34867 = lookupTag t.tags 34867 := by
  intro t sd
  cases hshot : sd.shotISO.truthy <;>
    simp [TiffProcessor.setTiffExifValues, Tiff.setT, lookupTag_setTag, hshot]

/-- C5 witness: the amended mapping evaluated at a concrete selection
with a truthy shot ISO. -/
theorem claim_C5_witness :
    lookupTag (TiffProcessor.setTiffExifValues ⟨.num 100, .num 80, []⟩
        { camera := ⟨.str "Canon", .str "AE-1"⟩,
          lens := ⟨.str "Canon", .str "FD", .str "50", .str "1.2"⟩,
          film := ⟨.str "Kodak", .str "Portra", .num 400⟩,
          shotISO := .num 800, photographer := .str "Jane Doe" }).tags 271
      = some (.str "Canon")
    ∧ lookupTag (TiffProcessor.setTiffExifValues ⟨.num 100, .num 80, []⟩
        { camera := ⟨.str "Canon", .str "AE-1"⟩,
          lens := ⟨.str "Canon", .str "FD", .str "50", .str "1.2"⟩,
          film := ⟨.str "Kodak", .str "Portra", .num 400⟩,
          shotISO := .num 800, photographer := .str "Jane Doe" }).tags 34864
      = some (.num 800)
    ∧ lookupTag (TiffProcessor.setTiffExifValues ⟨.num 100, .num 80, []⟩
        { camera := ⟨.str "Canon", .str "AE-1"⟩,
          lens := ⟨.str "Canon", .str "FD", .str "50", .str "1.2"⟩,
          film := ⟨.str "Kodak", .str "Portra", .num 400⟩,
          shotISO := .num 800, photographer := .str "Jane Doe" }).tags 34867 = none := by
  have h := claim_C5_amended_tiff_tags ⟨.num 100, .num 80, []⟩
    { camera := ⟨.str "Canon", .str "AE-1"⟩,
      lens := ⟨.str "Canon", .str "FD", .str "50", .str "1.2"⟩,
      film := ⟨.str "Kodak", .str "Portra", .num 400⟩,
      shotISO := .num 800, photographer := .str "Jane Doe" }
  exact ⟨h.1, h.2.2.2.2.2.2.1 rfl, h.2.2.2.2.2.2.2.2⟩

/-- C6: for the JPEG full-tier population, a shot ISO equal to the film
ISO or absent produces no shot-ISO tag, and every optional string field
whose value is null, undefined or all-whitespace is absent from the
output — never written as an empty string. -/
theorem claim_C6_jpeg_suppression :
    ∀ sd : SelectionData,
      (((∃ n : Int, sd.shotISO = .num n ∧ sd.film.iso = .num n) ∨ sd.shotISO = .undef) →
        lookupTag ((fullPopulate sd).getBucket .exif) 34867 = none)
      ∧ (emptyish sd.photographer = true →
          lookupTag ((fullPopulate sd).getBucket .zeroth) 315 = none)
      ∧ (emptyish sd.camera.maker = true →
          lookupTag ((fullPopulate sd).getBucket .zeroth) 271 = none)
      ∧ (emptyish sd.camera.model = true →
          lookupTag ((fullPopulate sd).getBucket .zeroth) 272 = none)
      ∧ (emptyish sd.lens.maker = true →
          lookupTag ((fullPopulate sd).getBucket .exif) 42035 = none)
      ∧ (JSVal.jsTrim sd.lens.getLensModelWithAperture = "" →
          lookupTag ((fullPopulate sd).getBucket .exif) 42036 = none) := by
  intro sd
  refine ⟨?_, ?_, ?_, ?_, ?_, ?_⟩
  · intro h
    have hg : shotISOGuard sd = false := by
      rcases h with ⟨n, h1, h2⟩ | h1
      · simp [shotISOGuard, h1, h2, JSVal.strictEq, JSVal.truthy]
      · simp [shotISOGuard, h1, JSVal.truthy]
    simp only [fullPopulate, JpegProcessor.setAllExifValues]
    simp only [lookupTag_setExifValue_ite, lookupTag_setExifValue]
    simp [EXIF_TAGS, hg, createCleanExifObject, ExifObj.getBucket, lookupTag]
  · intro h
    rcases emptyish_no_write _ h with h' | h' <;>
      · simp only [fullPopulate, JpegProcessor.setAllExifValues]
        simp only [lookupTag_setExifValue_ite, lookupTag_setExifValue]
        simp [EXIF_TAGS, h', createCleanExifObject, ExifObj.getBucket, lookupTag]
  · intro h
    rcases emptyish_no_write _ h with h' | h' <;>
      · simp only [fullPopulate, JpegProcessor.setAllExifValues]
        simp only [lookupTag_setExifValue_ite, lookupTag_setExifValue]
        simp [EXIF_TAGS, h', createCleanExifObject, ExifObj.getBucket, lookupTag]
  · intro h
    rcases emptyish_no_write _ h with h' | h' <;>
      · simp only [fullPopulate, JpegProcessor.setAllExifValues]
        simp only [lookupTag_setExifValue_ite, lookupTag_setExifValue]
        simp [EXIF_TAGS, h', createCleanExifObject, ExifObj.getBucket, lookupTag]
  · intro h
    rcases emptyish_no_write _ h with h' | h' <;>
      · simp only [fullPopulate, JpegProcessor.setAllExifValues]
        simp only [lookupTag_setExifValue_ite, lookupTag_setExifValue]
        simp [EXIF_TAGS, h', createCleanExifObject, ExifObj.getBucket, lookupTag]
  · intro h
    have hemp : emptyish (.str sd.lens.getLensModelWithAperture) = true := by
      simp [emptyish, h]
    rcases emptyish_no_write _ hemp with h' | h' <;>
      · simp only [fullPopulate, JpegProcessor.setAllExifValues]
        simp only [lookupTag_setExifValue_ite, lookupTag_setExifValue]
        simp [EXIF_TAGS, h', createCleanExifObject, ExifObj.getBucket, lookupTag]

/-- C6 witness: a selection where the shot ISO is absent, the
photographer is undefined, the camera maker is all-whitespace, the
camera model is null, the lens maker is undefined and the computed lens
model string is empty: none of these fields appears in the output. -/
theorem claim_C6_witness :
    lookupTag ((fullPopulate
        { camera := ⟨.str " ", .null⟩, lens := ⟨ .undef, .undef, .undef, .undef⟩,
          film := ⟨.str "Kodak", .str "Portra", .num 400⟩,
          shotISO := .undef, photographer := .undef }).getBucket .exif) 34867 = none
    ∧ lookupTag ((fullPopulate
        { camera := ⟨.str " ", .null⟩, lens := ⟨ .undef, .undef, .undef, .undef⟩,
          film := ⟨.str "Kodak", .str "Portra", .num 400⟩,
          shotISO := .undef, photographer := .undef }).getBucket .zeroth) 315 = none
    ∧ lookupTag ((fullPopulate
        { camera := ⟨.str " ", .null⟩, lens := ⟨ .undef, .undef, .undef, .undef⟩,
          film := ⟨.str "Kodak", .str "Portra", .num 400⟩,
          shotISO := .undef, photographer := .undef }).getBucket .zeroth) 271 = none
    ∧ lookupTag ((fullPopulate
        { camera := ⟨.str " ", .null⟩, lens := ⟨ .undef, .undef, .undef, .undef⟩,
          film := ⟨.str "Kodak", .str "Portra", .num 400⟩,
          shotISO := .undef, photographer := .undef }).getBucket .zeroth) 272 = none
    ∧ lookupTag ((fullPopulate
        { camera := ⟨.str " ", .null⟩, lens := ⟨ .undef, .undef, .undef, .undef⟩,
          film := ⟨.str "Kodak", .str "Portra", .num 400⟩,
          shotISO := .undef, photographer := .undef }).getBucket .exif) 42035 = none
    ∧ lookupTag ((fullPopulate
        { camera := ⟨.str " ", .null⟩, lens := ⟨ .undef, .undef, .undef, .undef⟩,
          film := ⟨.str "Kodak", .str "Portra", .num 400⟩,
          shotISO := .undef, photographer := .undef }).getBucket .exif) 42036 = none := by
  have h := claim_C6_jpeg_suppression
    { camera := ⟨.str " ", .null⟩, lens := ⟨ .undef, .undef, .undef, .undef⟩,
      film := ⟨.str "Kodak", .str "Portra", .num 400⟩,
      shotISO := .undef, photographer := .undef }
  exact ⟨h.1 (Or.inr rfl), h.2.1 (by decide), h.2.2.1 (by decide), h.2.2.2.1 (by decide),
         h.2.2.2.2.1 (by decide), h.2.2.2.2.2 (by decide)⟩

/-- C4 counterexample: with the photographer absent, the minimal tier
writes an Artist placeholder field (tag 315) that the basic tier lacks,
so the minimal tier's field set is not a subset — let alone a strict
subset — of the basic tier's. -/
theorem claim_C4_counterexample :
    hasField (JpegProcessor.createMinimalExifObj
        { camera := ⟨.str "Canon", .str "AE-1"⟩,
          lens := ⟨.str "Canon", .str "FD", .str "50", .str "1.2"⟩,
          film := ⟨.str "Kodak", .str "Portra", .num 400⟩,
          shotISO := .undef, photographer := .undef }) .zeroth 315 = true
    ∧ hasField (JpegProcessor.createBasicExifObj
        { camera := ⟨.str "Canon", .str "AE-1"⟩,
          lens := ⟨.str "Canon", .str "FD", .str "50", .str "1.2"⟩,
          film := ⟨.str "Kodak", .str "Portra", .num 400⟩,
          shotISO := .undef, photographer := .undef }) .zeroth 315 = false
    ∧ ¬ (∀ (i : Ifd) (t : Nat),
          hasField (JpegProcessor.createMinimalExifObj
            { camera := ⟨.str "Canon", .str "AE-1"⟩,
              lens := ⟨.str "Canon", .str "FD", .str "50", .str "1.2"⟩,
              film := ⟨.str "Kodak", .str "Portra", .num 400⟩,
              shotISO := .undef, photographer := .undef }) i t = true →
          hasField (JpegProcessor.createBasicExifObj
            { camera := ⟨.str "Canon", .str "AE-1"⟩,
              lens := ⟨.str "Canon", .str "FD", .str "50", .str "1.2"⟩,
              film := ⟨.str "Kodak", .str "Portra", .num 400⟩,
              shotISO := .undef, photographer := .undef }) i t = true) :=
  ⟨by decide, by decide, fun hsub => absurd (hsub .zeroth 315 (by decide)) (by decide)⟩

/-- C4 amended: (1) when none of camera maker, camera model,
photographer and shot ISO is a truthy all-whitespace string, every field
the basic tier writes is also in the full tier's intended field set
(subset, not necessarily strict); (2) the minimal tier is not in general
a subset of the basic tier — it always writes Make, Model and Artist
with placeholders — but when maker, model, photographer and film ISO are
all truthy and the shot ISO is a number or absent, the minimal tier's
field set is exactly the basic tier's. -/
theorem claim_C4_amended_tier_monotonicity :
    (∀ sd : SelectionData,
      (sd.camera.maker.truthy && sd.camera.maker.isWsStr) = false →
      (sd.camera.model.truthy && sd.camera.model.isWsStr) = false →
      (sd.photographer.truthy && sd.photographer.isWsStr) = false →
      (sd.shotISO.truthy && sd.shotISO.isWsStr) = false →
      ∀ (i : Ifd) (t : Nat),
        hasField (JpegProcessor.createBasicExifObj sd) i t = true →
        hasField (fullPopulate sd) i t = true)
    ∧ (∀ sd : SelectionData,
      sd.camera.maker.truthy = true →
      sd.camera.model.truthy = true →
      sd.photographer.truthy = true →
      sd.film.iso.truthy = true →
      (sd.shotISO.isNum = true ∨ sd.shotISO.truthy = false) →
      ∀ (i : Ifd) (t : Nat),
        hasField (JpegProcessor.createMinimalExifObj sd) i t
          = hasField (JpegProcessor.createBasicExifObj sd) i t) := by
  constructor
  · intro sd h1 h2 h3 h4 i t hbas
    simp only [JpegProcessor.createBasicExifObj, hasField] at hbas
    cases i with
    | gps => simp only [ExifObj.getBucket] at hbas; simp [lookupTag] at hbas
    | interop => simp only [ExifObj.getBucket] at hbas; simp [lookupTag] at hbas
    | first => simp only [ExifObj.getBucket] at hbas; simp [lookupTag] at hbas
    | zeroth =>
        simp only [ExifObj.getBucket] at hbas
        simp only [lookupTag_append, lookupTag_if_singleton, option_isSome_or,
          Bool.or_eq_true, isSome_if_eq] at hbas
        rcases hbas with (⟨hc, ht⟩ | ⟨hc, ht⟩) | ⟨hc, ht⟩ <;> subst ht
        · have hw := bool_and_false_right h1 hc
          simp only [fullPopulate, JpegProcessor.setAllExifValues, hasField]
          simp only [lookupTag_setExifValue_ite, lookupTag_setExifValue]
          simp [EXIF_TAGS, hc, hw]
        · have hw := bool_and_false_right h2 hc
          simp only [fullPopulate, JpegProcessor.setAllExifValues, hasField]
          simp only [lookupTag_setExifValue_ite, lookupTag_setExifValue]
          simp [EXIF_TAGS, hc, hw]
        · have hw := bool_and_false_right h3 hc
          simp only [fullPopulate, JpegProcessor.setAllExifValues, hasField]
          simp only [lookupTag_setExifValue_ite, lookupTag_setExifValue]
          simp [EXIF_TAGS, hc, hw]
    | exif =>
        simp only [ExifObj.getBucket] at hbas
        simp only [lookupTag_append, lookupTag_if_singleton, option_isSome_or,
          Bool.or_eq_true, isSome_if_eq] at hbas
        rcases hbas with ⟨hc, ht⟩ | ⟨hc, ht⟩ <;> subst ht
        · simp only [fullPopulate, JpegProcessor.setAllExifValues, hasField]
          simp only [lookupTag_setExifValue_ite, lookupTag_setExifValue]
          simp [EXIF_TAGS, JSVal.truthy, JSVal.isWsStr]
        · have htr : sd.shotISO.truthy = true := by
            cases hx : sd.shotISO.truthy
            · simp [shotISOGuard, hx] at hc
            · rfl
          have hw := bool_and_false_right h4 htr
          simp only [fullPopulate, JpegProcessor.setAllExifValues, hasField]
          simp only [lookupTag_setExifValue_ite, lookupTag_setExifValue]
          simp [EXIF_TAGS, hc, htr, hw]
  · intro sd h1 h2 h3 h4 h5 i t
    cases i with
    | gps => rfl
    | interop => rfl
    | first => rfl
    | zeroth =>
        simp only [JpegProcessor.createMinimalExifObj, JpegProcessor.createBasicExifObj,
          hasField, ExifObj.getBucket]
        simp only [lookupTag_append, lookupTag_if_singleton, option_isSome_or, h1, h2, h3,
          lookupTag]
        by_cases ht1 : (271 : Nat) = t <;> by_cases ht2 : (272 : Nat) = t <;>
          by_cases ht3 : (315 : Nat) = t <;> simp [ht1, ht2, ht3]
    | exif =>
        have hg : (shotISOGuard sd && sd.shotISO.isNum) = shotISOGuard sd := by
          rcases h5 with h5 | h5
          · simp [h5]
          · simp [shotISOGuard, h5]
        simp only [JpegProcessor.createMinimalExifObj, JpegProcessor.createBasicExifObj,
          hasField, ExifObj.getBucket, hg, h4, if_true]

/-- C4 witness: the amended subset and equality facts evaluated at a
fully-populated concrete selection, at the Make field and the shot-ISO
field. -/
theorem claim_C4_witness :
    hasField (JpegProcessor.createBasicExifObj
        { camera := ⟨.str "Canon", .str "AE-1"⟩,
          lens := ⟨.str "Canon", .str "FD", .str "50", .str "1.2"⟩,
          film := ⟨.str "Kodak", .str "Portra", .num 400⟩,
          shotISO := .num 800, photographer := .str "Jane Doe" }) .zeroth 271 = true
    ∧ hasField (fullPopulate
        { camera := ⟨.str "Canon", .str "AE-1"⟩,
          lens := ⟨.str "Canon", .str "FD", .str "50", .str "1.2"⟩,
          film := ⟨.str "Kodak", .str "Portra", .num 400⟩,
          shotISO := .num 800, photographer := .str "Jane Doe" }) .zeroth 271 = true
    ∧ hasField (JpegProcessor.createMinimalExifObj
        { camera := ⟨.str "Canon", .str "AE-1"⟩,
          lens := ⟨.str "Canon", .str "FD", .str "50", .str "1.2"⟩,
          film := ⟨.str "Kodak", .str "Portra", .num 400⟩,
          shotISO := .num 800, photographer := .str "Jane Doe" }) .exif 34867
      = hasField (JpegProcessor.createBasicExifObj
        { camera := ⟨.str "Canon", .str "AE-1"⟩,
          lens := ⟨.str "Canon", .str "FD", .str "50", .str "1.2"⟩,
          film := ⟨.str "Kodak", .str "Portra", .num 400⟩,
          shotISO := .num 800, photographer := .str "Jane Doe" }) .exif 34867 := by
  refine ⟨by decide, ?_, ?_⟩
  · exact claim_C4_amended_tier_monotonicity.1
      { camera := ⟨.str "Canon", .str "AE-1"⟩,
        lens := ⟨.str "Canon", .str "FD", .str "50", .str "1.2"⟩,
        film := ⟨.str "Kodak", .str "Portra", .num 400⟩,
        shotISO := .num 800, photographer := .str "Jane Doe" }
      (by decide) (by decide) (by decide) (by decide) .zeroth 271 (by decide)
  · exact claim_C4_amended_tier_monotonicity.2
      { camera := ⟨.str "Canon", .str "AE-1"⟩,
        lens := ⟨.str "Canon", .str "FD", .str "50", .str "1.2"⟩,
        film := ⟨.str "Kodak", .str "Portra", .num 400⟩,
        shotISO := .num 800, photographer := .str "Jane Doe" }
      (by decide) (by decide) (by decide) (by decide) (Or.inl (by decide)) .exif 34867

/-- C7 counterexample: for a Selection with camera and film but no lens,
the XMP template throws (it dereferences `selection.setup.lens.maker`
unconditionally), so `createSidecarFile` returns `false` and writes
nothing — the lens elements are not omitted and create does not succeed
for a lens-less Selection. -/
theorem claim_C7_counterexample :
    generateXmpSidecar
        { setup := some { camera := some ⟨.str "Canon", .str "AE-1"⟩, lens := none },
          film := some ⟨.str "Kodak", .str "Portra", .num 400⟩,
          shotISO := .undef, photographer := .str "Jane Doe" } = .error "TypeError"
    ∧ createSidecarFile "photo.cr2"
        (some { setup := some { camera := some ⟨.str "Canon", .str "AE-1"⟩, lens := none },
                film := some ⟨.str "Kodak", .str "Portra", .num 400⟩,
                shotISO := .undef, photographer := .str "Jane Doe" }) true
      = ⟨false, none⟩ :=
  ⟨rfl, rfl⟩

set_option maxRecDepth 4096 in
/-- C7 amended: `createSidecarFile` writes a document at `path + ".xmp"`
only when setup, camera, lens and film are all present; with no lens it
returns `false` and creates nothing.  In the generated document the
`exif:PhotographicSensitivity` element appears exactly when `shotISO` is
truthy; every other element (including the lens elements) is always
emitted, with an absent scalar rendered as the literal text `undefined`
rather than the element being omitted. -/
theorem claim_C7_amended_sidecar_shape :
    (∀ (path : String) (cam : Camera) (film : Film) (si ph : JSVal) (writeOk : Bool),
      createSidecarFile path
          (some { setup := some { camera := some cam, lens := none },
                  film := some film, shotISO := si, photographer := ph }) writeOk
        = ⟨false, none⟩)
    ∧ (∀ (path : String) (cam : Camera) (lens : Lens) (film : Film) (si ph : JSVal),
        ∃ doc, createSidecarFile path
            (some { setup := some { camera := some cam, lens := some lens },
                    film := some film, shotISO := si, photographer := ph }) true
          = ⟨true, some (path ++ ".xmp", doc)⟩)
    ∧ (∃ doc, generateXmpSidecar
          { setup := some { camera := some ⟨.str "Canon", .str "AE-1"⟩,
                            lens := some ⟨.str "Canon", .str "FD", .str "50", .str "1.2"⟩ },
            film := some ⟨.str "Kodak", .str "Portra", .num 400⟩,
            shotISO := .num 800, photographer := .str "Jane Doe" } = .ok doc
        ∧ strContains doc
            "<exif:PhotographicSensitivity>800</exif:PhotographicSensitivity>" = true)
    ∧ (∃ doc, generateXmpSidecar
          { setup := some { camera := some ⟨.str "Canon", .str "AE-1"⟩,
                            lens := some ⟨.str "Canon", .str "FD", .str "50", .str "1.2"⟩ },
            film := some ⟨.str "Kodak", .str "Portra", .num 400⟩,
            shotISO := .undef, photographer := .undef } = .ok doc
        ∧ strContains doc "PhotographicSensitivity" = false
        ∧ strContains doc "<exif:LensMake>Canon</exif:LensMake>" = true
        ∧ strContains doc "<rdf:li>undefined</rdf:li>" = true) := by
  refine ⟨?_, ?_, ?_, ?_⟩
  · intro path cam film si ph writeOk
    rfl
  · intro path cam lens film si ph
    exact ⟨_, rfl⟩
  · exact ⟨_, rfl, by decide⟩
  · exact ⟨_, rfl, by decide, by decide, by decide⟩

end Ifex
